import Mathlib

/-!
Shallow embedding of the decision/merge engine of the 2WW Colorectal
Pathway Selector.

Sources:
* `src/src/App.jsx` — the latest revision: `fitBand`, `decision` (with the
  `recentImaging` short-circuit and the unified `rb_cibh_lt_50` pathway),
  and `mergeOutcomes`.
* `src/unnamed/part_000` — the earlier revision whose `decision` splits the
  rectal-bleeding pathway into `rb_cibh_lt_50_anaemia` /
  `rb_cibh_lt_50_no_anaemia` and has no `recentImaging` flag.

Modelling conventions:
* JavaScript numbers entered in the form are modelled as `Option ℚ`.
  Every read of `age` / `fit` in the source is guarded by
  `x === null || Number.isNaN(x)` (or the conjunction of their negations),
  so a `NaN` value behaves exactly like `null` everywhere in the engine;
  the embedding folds both into `none`.
* Tri-state flags (`null | boolean`) are `Option Bool`; the WHO status
  (`null | 0..4`) is `Option ℕ`.
* The pathway identifier is a `String`, as in the source; the `switch`
  statements are embedded as the equality chains they denote, with the
  `default` case as the final `else`.
* In the source every `return` inside `decision` is `return finalize(res)`,
  where `finalize` is a closure over `whoStatus`.  The embedding factors
  this out: `decisionPre` is the body of `decision` with each
  `return finalize(res)` replaced by `return res`, and
  `decision i = finalize i.whoStatus (decisionPre i)`.
-/

namespace Colorectal

/-- The FIT band: `"lt_10"`, `"10_100"` or `"gt_100"` in the source. -/
inductive Band where
  | lt_10
  | b10_100
  | gt_100
deriving DecidableEq, Repr

/-- `fitBand` (src/src/App.jsx lines 30–35; identical at part_000 lines 34–39):
`null`/`NaN` → no band, `fit < 10` → low, `10 <= fit <= 100` → mid, else high. -/
def fitBand (fit : Option ℚ) : Option Band :=
  match fit with
  | none => none
  | some v =>
    if v < 10 then some Band.lt_10
    else if 10 ≤ v ∧ v ≤ 100 then some Band.b10_100
    else some Band.gt_100

/-- The result record built by `decision`: `missing`, `band`, `outcome`,
`step`, `mapping`, `supplementary` (src/src/App.jsx lines 61–68). -/
structure DecisionResult where
  missing : List String
  band : Option Band
  outcome : String
  step : String
  mapping : List String
  supplementary : List String
deriving DecidableEq, Repr

/-- The input record destructured by `decision` in src/src/App.jsx line 45. -/
structure Input where
  pathway : String
  age : Option ℚ
  fit : Option ℚ
  frailElderly : Option Bool
  anaemia : Option Bool
  whoStatus : Option ℕ
  recentImaging : Option Bool

/-- `finalize` (src/src/App.jsx lines 70–76; identical at part_000 lines 77–83):
if WHO status is 3 or 4, overwrite the outcome with the face-to-face
assessment text and append the WHO trace entry. -/
def finalize (whoStatus : Option ℕ) (result : DecisionResult) : DecisionResult :=
  if whoStatus = some 3 ∨ whoStatus = some 4 then
    { result with
      outcome := "Face-to-face assessment",
      mapping := result.mapping ++ ["WHO status 3–4 → face-to-face assessment."] }
  else result

/-- The `pathways` array of src/src/App.jsx lines 13–26 (key, label). -/
def pathways : List (String × String) :=
  [("abdominal_mass", "Abdominal mass"),
   ("anal_rectal_lesion", "Anal or rectal lesion"),
   ("cibh_50_85", "Change in bowel habit (age 50–85)"),
   ("cibh_gt_85", "Change in bowel habit (age >85)"),
   ("ida_gt_50", "Iron deficiency anaemia (age >50)"),
   ("ida_lt_50", "Iron deficiency anaemia (age <50)"),
   ("rb_cibh_lt_50", "Rectal bleeding + CIBH (age <50)"),
   ("wl_50_85", "Weight loss (age 50–85)"),
   ("wl_lt_50_or_gt_85", "Weight loss (age <50 OR >85)")]

/-- The recognized pathway keys (the cases of the `switch` in `decision`). -/
def pathwayKeys : List String := pathways.map Prod.fst

/-- The body of `decision` (src/src/App.jsx lines 45–273) with each
`return finalize(res)` replaced by `return res`; see the module docstring.
The missing-field block is lines 46–57, the short-circuit lines 78–83,
the `switch` lines 87–272. -/
def decisionPre (i : Input) : DecisionResult :=
  let missing :=
    (if i.pathway = "" then ["pathway selection"] else [])
    ++ (if i.pathway ≠ "" ∧ i.pathway ≠ "anal_rectal_lesion" then
          (if i.age = none then ["age"] else [])
          ++ (if i.fit = none then ["FIT test result"] else [])
        else [])
    ++ (if i.pathway = "abdominal_mass" ∧ i.frailElderly = none then
          ["frail/elderly status"] else [])
    ++ (if i.pathway = "rb_cibh_lt_50" ∧ i.anaemia = none then
          ["anaemia status"] else [])
  let band := fitBand i.fit
  let res : DecisionResult :=
    { missing := missing, band := band, outcome := "—",
      step := if i.pathway = "" then "Choose a pathway" else "",
      mapping := [], supplementary := [] }
  if i.recentImaging = some true then
    { res with
      outcome := "Face-to-face appointment",
      mapping := res.mapping
        ++ ["Recent imaging/colonoscopy within 12 months → face-to-face appointment."] }
  else if i.pathway = "" then res
  else if i.pathway = "abdominal_mass" then
    let res := { res with step := "Rule set A: Abdominal mass" }
    if i.frailElderly = some true then
      { res with
        outcome := "CT abdomen & pelvis (CT AP)",
        mapping := res.mapping ++ ["Abdominal mass + frail/elderly → CT AP."] }
    else
      let res :=
        if band = some Band.b10_100 then
          { res with outcome := "CT colonography (CTC)",
                     mapping := res.mapping ++ ["Abdominal mass + FIT 10–100 → CTC."] }
        else if band = some Band.gt_100 then
          { res with outcome := "Colonoscopy",
                     mapping := res.mapping ++ ["Abdominal mass + FIT >100 → colonoscopy."] }
        else if band = some Band.lt_10 then
          { res with outcome := "CT abdomen & pelvis (CT AP)",
                     mapping := res.mapping ++ ["Abdominal mass + FIT <10 → CT AP."] }
        else { res with outcome := "Needs FIT result" }
      if i.frailElderly = none then
        { res with supplementary := res.supplementary
            ++ ["Frail/elderly status missing: if frail/elderly, pathway specifies CT AP regardless of FIT band."] }
      else res
  else if i.pathway = "anal_rectal_lesion" then
    { res with
      step := "Rule set: Anal or rectal lesion",
      outcome := "Face-to-face assessment",
      mapping := res.mapping ++ ["Anal or rectal lesion → face-to-face assessment."] }
  else if i.pathway = "cibh_50_85" then
    let res := { res with step := "Rule set B: CIBH age 50–85" }
    let res :=
      if band = some Band.b10_100 then
        { res with outcome := "CT colonography (CTC)",
                   mapping := res.mapping ++ ["CIBH 50–85 + FIT 10–100 → CTC."] }
      else if band = some Band.gt_100 then
        { res with outcome := "Colonoscopy",
                   mapping := res.mapping ++ ["CIBH 50–85 + FIT >100 → colonoscopy."] }
      else if band = some Band.lt_10 then
        { res with outcome := "Follow pathway guidance for FIT <10 (not provided in your rules yet)",
                   mapping := res.mapping ++ ["CIBH 50–85 + FIT <10 → follow FIT <10 guidance."] }
      else { res with outcome := "Needs FIT result" }
    match i.age with
    | some a =>
      if a < 50 ∨ a > 85 then
        { res with supplementary := res.supplementary
            ++ ["Age entered is outside 50–85 for this pathway selection."] }
      else res
    | none => res
  else if i.pathway = "cibh_gt_85" then
    let res := { res with step := "Rule set C: CIBH age >85" }
    let res :=
      if band = some Band.b10_100 then
        { res with outcome := "Tagged CT scan",
                   mapping := res.mapping ++ ["CIBH >85 + FIT 10–100 → tagged CT scan."] }
      else if band = some Band.gt_100 then
        { res with outcome := "Colonoscopy",
                   mapping := res.mapping ++ ["CIBH >85 + FIT >100 → colonoscopy."] }
      else if band = some Band.lt_10 then
        { res with outcome := "Follow pathway guidance for FIT <10 (not provided in your rules yet)",
                   mapping := res.mapping ++ ["CIBH >85 + FIT <10 → follow FIT <10 guidance."] }
      else { res with outcome := "Needs FIT result" }
    match i.age with
    | some a =>
      if a ≤ 85 then
        { res with supplementary := res.supplementary
            ++ ["Age entered is not >85 for this pathway selection."] }
      else res
    | none => res
  else if i.pathway = "ida_gt_50" then
    let res := { res with step := "Rule set D: IDA age >50" }
    let res :=
      if band = some Band.gt_100 then
        { res with outcome := "Colonoscopy + OGD",
                   mapping := res.mapping ++ ["IDA >50 + FIT >100 → colonoscopy + OGD."] }
      else if band = some Band.b10_100 then
        { res with outcome := "CTC + OGD",
                   mapping := res.mapping ++ ["IDA >50 + FIT 10–100 → CTC + OGD."] }
      else if band = some Band.lt_10 then
        { res with outcome := "CTC + OGD",
                   mapping := res.mapping ++ ["IDA >50 + FIT <10 → CTC + OGD."] }
      else { res with outcome := "Needs FIT result" }
    match i.age with
    | some a =>
      if a ≤ 50 then
        { res with supplementary := res.supplementary
            ++ ["Age entered is not >50 for this pathway selection."] }
      else res
    | none => res
  else if i.pathway = "ida_lt_50" then
    let res := { res with step := "Rule set E: IDA age <50",
                          outcome := "Colonoscopy + OGD",
                          mapping := res.mapping
                            ++ ["IDA <50 → colonoscopy + OGD (regardless of FIT band in your rules)."] }
    match i.age with
    | some a =>
      if a ≥ 50 then
        { res with supplementary := res.supplementary
            ++ ["Age entered is not <50 for this pathway selection."] }
      else res
    | none => res
  else if i.pathway = "rb_cibh_lt_50" then
    let res := { res with step := "Rule set F/G: Rectal bleeding + CIBH <50" }
    let res :=
      if i.anaemia = some true then
        { res with outcome := "Colonoscopy",
                   mapping := res.mapping ++ ["RB + CIBH <50 + anaemia → colonoscopy regardless of FIT."] }
      else if i.anaemia = some false then
        if band = some Band.b10_100 ∨ band = some Band.gt_100 then
          { res with outcome := "Flexible sigmoidoscopy (FOS) → if NAD, proceed to colonoscopy",
                     mapping := res.mapping
                       ++ ["RB + CIBH <50 no anaemia + FIT ≥10 → FOS then if NAD proceed to colonoscopy."] }
        else if band = some Band.lt_10 then
          { res with outcome := "Flexible sigmoidoscopy",
                     mapping := res.mapping
                       ++ ["RB + CIBH <50 no anaemia + FIT <10 → flexible sigmoidoscopy."] }
        else { res with outcome := "Needs FIT result" }
      else
        { res with outcome := "Needs anaemia status",
                   mapping := res.mapping
                     ++ ["If anaemia present → colonoscopy regardless of FIT. If absent, follow FIT-band guidance for FOS/colonoscopy."] }
    let res :=
      if i.anaemia = none then
        { res with supplementary := res.supplementary
            ++ ["Anaemia status missing: if anaemia present → colonoscopy regardless of FIT."] }
      else res
    match i.age with
    | some a =>
      if a ≥ 50 then
        { res with supplementary := res.supplementary
            ++ ["Age entered is not <50 for this pathway selection."] }
      else res
    | none => res
  else if i.pathway = "wl_50_85" then
    let res := { res with step := "Rule set H: Weight loss age 50–85" }
    let res :=
      if band = some Band.b10_100 then
        { res with outcome := "CTC + CT thorax",
                   mapping := res.mapping ++ ["Weight loss 50–85 + FIT 10–100 → CTC + CT thorax."] }
      else if band = some Band.gt_100 then
        { res with outcome := "Colonoscopy",
                   mapping := res.mapping ++ ["Weight loss 50–85 + FIT >100 → colonoscopy."] }
      else if band = some Band.lt_10 then
        { res with outcome := "Follow pathway guidance for FIT <10 (not provided in your rules yet)",
                   mapping := res.mapping ++ ["Weight loss 50–85 + FIT <10 → follow FIT <10 guidance."] }
      else { res with outcome := "Needs FIT result" }
    match i.age with
    | some a =>
      if a < 50 ∨ a > 85 then
        { res with supplementary := res.supplementary
            ++ ["Age entered is outside 50–85 for this pathway selection."] }
      else res
    | none => res
  else if i.pathway = "wl_lt_50_or_gt_85" then
    let res := { res with step := "Rule set I: Weight loss age <50 OR >85" }
    let res :=
      if band = some Band.b10_100 then
        { res with outcome := "CT thorax/abdomen/pelvis (CT TAP)",
                   mapping := res.mapping ++ ["Weight loss <50 or >85 + FIT 10–100 → CT TAP."] }
      else if band = some Band.gt_100 then
        { res with outcome := "Colonoscopy",
                   mapping := res.mapping ++ ["Weight loss <50 or >85 + FIT >100 → colonoscopy."] }
      else if band = some Band.lt_10 then
        { res with outcome := "Follow pathway guidance for FIT <10 (not provided in your rules yet)",
                   mapping := res.mapping ++ ["Weight loss <50 or >85 + FIT <10 → follow FIT <10 guidance."] }
      else { res with outcome := "Needs FIT result" }
    match i.age with
    | some a =>
      if a ≥ 50 ∧ a ≤ 85 then
        { res with supplementary := res.supplementary
            ++ ["Age entered is 50–85; consider selecting the 50–85 weight loss pathway."] }
      else res
    | none => res
  else
    { res with
      step := "Not covered",
      outcome := "This selection is not covered by the provided flowchart rules." }

/-- `decision` of src/src/App.jsx lines 45–273: every return path of the
source is `return finalize(res)`, so `decision` is `finalize` applied to
the pre-finalization result. -/
def decision (i : Input) : DecisionResult :=
  finalize i.whoStatus (decisionPre i)

/-- The input record of the earlier revision's `decision`
(src/unnamed/part_000 line 49): no `recentImaging` field. -/
structure InputSplit where
  pathway : String
  age : Option ℚ
  fit : Option ℚ
  frailElderly : Option Bool
  anaemia : Option Bool
  whoStatus : Option ℕ

/-- The body of the earlier revision's `decision`
(src/unnamed/part_000 lines 49–289) with each `return finalize(res)`
replaced by `return res`; the rectal-bleeding pathway is split into rule
sets F (lines 198–214) and G (lines 217–240), and there is no
recent-imaging short-circuit.  Branches shared with the later revision are
textually identical in the source. -/
def decisionSplitPre (i : InputSplit) : DecisionResult :=
  let missing :=
    (if i.pathway = "" then ["pathway selection"] else [])
    ++ (if i.pathway ≠ "" ∧ i.pathway ≠ "anal_rectal_lesion" then
          (if i.age = none then ["age"] else [])
          ++ (if i.fit = none then ["FIT test result"] else [])
        else [])
    ++ (if i.pathway = "abdominal_mass" ∧ i.frailElderly = none then
          ["frail/elderly status"] else [])
    ++ (if (i.pathway = "rb_cibh_lt_50_anaemia" ∨ i.pathway = "rb_cibh_lt_50_no_anaemia")
          ∧ i.anaemia = none then
          ["anaemia status"] else [])
  let band := fitBand i.fit
  let res : DecisionResult :=
    { missing := missing, band := band, outcome := "—",
      step := if i.pathway = "" then "Choose a pathway" else "",
      mapping := [], supplementary := [] }
  if i.pathway = "" then res
  else if i.pathway = "abdominal_mass" then
    let res := { res with step := "Rule set A: Abdominal mass" }
    if i.frailElderly = some true then
      { res with
        outcome := "CT abdomen & pelvis (CT AP)",
        mapping := res.mapping ++ ["Abdominal mass + frail/elderly → CT AP."] }
    else
      let res :=
        if band = some Band.b10_100 then
          { res with outcome := "CT colonography (CTC)",
                     mapping := res.mapping ++ ["Abdominal mass + FIT 10–100 → CTC."] }
        else if band = some Band.gt_100 then
          { res with outcome := "Colonoscopy",
                     mapping := res.mapping ++ ["Abdominal mass + FIT >100 → colonoscopy."] }
        else if band = some Band.lt_10 then
          { res with outcome := "CT abdomen & pelvis (CT AP)",
                     mapping := res.mapping ++ ["Abdominal mass + FIT <10 → CT AP."] }
        else { res with outcome := "Needs FIT result" }
      if i.frailElderly = none then
        { res with supplementary := res.supplementary
            ++ ["Frail/elderly status missing: if frail/elderly, pathway specifies CT AP regardless of FIT band."] }
      else res
  else if i.pathway = "anal_rectal_lesion" then
    { res with
      step := "Rule set: Anal or rectal lesion",
      outcome := "Face-to-face assessment",
      mapping := res.mapping ++ ["Anal or rectal lesion → face-to-face assessment."] }
  else if i.pathway = "cibh_50_85" then
    let res := { res with step := "Rule set B: CIBH age 50–85" }
    let res :=
      if band = some Band.b10_100 then
        { res with outcome := "CT colonography (CTC)",
                   mapping := res.mapping ++ ["CIBH 50–85 + FIT 10–100 → CTC."] }
      else if band = some Band.gt_100 then
        { res with outcome := "Colonoscopy",
                   mapping := res.mapping ++ ["CIBH 50–85 + FIT >100 → colonoscopy."] }
      else if band = some Band.lt_10 then
        { res with outcome := "Follow pathway guidance for FIT <10 (not provided in your rules yet)",
                   mapping := res.mapping ++ ["CIBH 50–85 + FIT <10 → follow FIT <10 guidance."] }
      else { res with outcome := "Needs FIT result" }
    match i.age with
    | some a =>
      if a < 50 ∨ a > 85 then
        { res with supplementary := res.supplementary
            ++ ["Age entered is outside 50–85 for this pathway selection."] }
      else res
    | none => res
  else if i.pathway = "cibh_gt_85" then
    let res := { res with step := "Rule set C: CIBH age >85" }
    let res :=
      if band = some Band.b10_100 then
        { res with outcome := "Tagged CT scan",
                   mapping := res.mapping ++ ["CIBH >85 + FIT 10–100 → tagged CT scan."] }
      else if band = some Band.gt_100 then
        { res with outcome := "Colonoscopy",
                   mapping := res.mapping ++ ["CIBH >85 + FIT >100 → colonoscopy."] }
      else if band = some Band.lt_10 then
        { res with outcome := "Follow pathway guidance for FIT <10 (not provided in your rules yet)",
                   mapping := res.mapping ++ ["CIBH >85 + FIT <10 → follow FIT <10 guidance."] }
      else { res with outcome := "Needs FIT result" }
    match i.age with
    | some a =>
      if a ≤ 85 then
        { res with supplementary := res.supplementary
            ++ ["Age entered is not >85 for this pathway selection."] }
      else res
    | none => res
  else if i.pathway = "ida_gt_50" then
    let res := { res with step := "Rule set D: IDA age >50" }
    let res :=
      if band = some Band.gt_100 then
        { res with outcome := "Colonoscopy + OGD",
                   mapping := res.mapping ++ ["IDA >50 + FIT >100 → colonoscopy + OGD."] }
      else if band = some Band.b10_100 then
        { res with outcome := "CTC + OGD",
                   mapping := res.mapping ++ ["IDA >50 + FIT 10–100 → CTC + OGD."] }
      else if band = some Band.lt_10 then
        { res with outcome := "CTC + OGD",
                   mapping := res.mapping ++ ["IDA >50 + FIT <10 → CTC + OGD."] }
      else { res with outcome := "Needs FIT result" }
    match i.age with
    | some a =>
      if a ≤ 50 then
        { res with supplementary := res.supplementary
            ++ ["Age entered is not >50 for this pathway selection."] }
      else res
    | none => res
  else if i.pathway = "ida_lt_50" then
    let res := { res with step := "Rule set E: IDA age <50",
                          outcome := "Colonoscopy + OGD",
                          mapping := res.mapping
                            ++ ["IDA <50 → colonoscopy + OGD (regardless of FIT band in your rules)."] }
    match i.age with
    | some a =>
      if a ≥ 50 then
        { res with supplementary := res.supplementary
            ++ ["Age entered is not <50 for this pathway selection."] }
      else res
    | none => res
  else if i.pathway = "rb_cibh_lt_50_anaemia" then
    let res := { res with step := "Rule set F: Rectal bleeding + CIBH <50 with anaemia" }
    let res :=
      if i.anaemia = some true then
        { res with outcome := "Colonoscopy",
                   mapping := res.mapping ++ ["RB + CIBH <50 + anaemia → colonoscopy regardless of FIT."] }
      else if i.anaemia = some false then
        { res with outcome := "Anaemia not present — select the 'WITHOUT anaemia' pathway",
                   mapping := res.mapping ++ ["This pathway applies only if anaemia is present."] }
      else
        { res with outcome := "Needs anaemia status",
                   mapping := res.mapping ++ ["If anaemia is present → colonoscopy regardless of FIT."] }
    match i.age with
    | some a =>
      if a ≥ 50 then
        { res with supplementary := res.supplementary
            ++ ["Age entered is not <50 for this pathway selection."] }
      else res
    | none => res
  else if i.pathway = "rb_cibh_lt_50_no_anaemia" then
    let res := { res with step := "Rule set G: Rectal bleeding + CIBH <50 without anaemia" }
    if i.anaemia = some true then
      { res with outcome := "Anaemia present — select the 'WITH anaemia' pathway (colonoscopy regardless of FIT)",
                 mapping := res.mapping ++ ["With anaemia, rule set F overrides FIT band."] }
    else
      let res :=
        if band = some Band.b10_100 ∨ band = some Band.gt_100 then
          { res with outcome := "Flexible sigmoidoscopy (FOS) → if NAD, proceed to colonoscopy",
                     mapping := res.mapping
                       ++ ["RB + CIBH <50 no anaemia + FIT ≥10 → FOS then if NAD proceed to colonoscopy."] }
        else if band = some Band.lt_10 then
          { res with outcome := "Flexible sigmoidoscopy",
                     mapping := res.mapping
                       ++ ["RB + CIBH <50 no anaemia + FIT <10 → flexible sigmoidoscopy."] }
        else { res with outcome := "Needs FIT result" }
      let res :=
        if i.anaemia = none then
          { res with supplementary := res.supplementary
              ++ ["Anaemia status missing: if anaemia present → colonoscopy regardless of FIT."] }
        else res
      match i.age with
      | some a =>
        if a ≥ 50 then
          { res with supplementary := res.supplementary
              ++ ["Age entered is not <50 for this pathway selection."] }
        else res
      | none => res
  else if i.pathway = "wl_50_85" then
    let res := { res with step := "Rule set H: Weight loss age 50–85" }
    let res :=
      if band = some Band.b10_100 then
        { res with outcome := "CTC + CT thorax",
                   mapping := res.mapping ++ ["Weight loss 50–85 + FIT 10–100 → CTC + CT thorax."] }
      else if band = some Band.gt_100 then
        { res with outcome := "Colonoscopy",
                   mapping := res.mapping ++ ["Weight loss 50–85 + FIT >100 → colonoscopy."] }
      else if band = some Band.lt_10 then
        { res with outcome := "Follow pathway guidance for FIT <10 (not provided in your rules yet)",
                   mapping := res.mapping ++ ["Weight loss 50–85 + FIT <10 → follow FIT <10 guidance."] }
      else { res with outcome := "Needs FIT result" }
    match i.age with
    | some a =>
      if a < 50 ∨ a > 85 then
        { res with supplementary := res.supplementary
            ++ ["Age entered is outside 50–85 for this pathway selection."] }
      else res
    | none => res
  else if i.pathway = "wl_lt_50_or_gt_85" then
    let res := { res with step := "Rule set I: Weight loss age <50 OR >85" }
    let res :=
      if band = some Band.b10_100 then
        { res with outcome := "CT thorax/abdomen/pelvis (CT TAP)",
                   mapping := res.mapping ++ ["Weight loss <50 or >85 + FIT 10–100 → CT TAP."] }
      else if band = some Band.gt_100 then
        { res with outcome := "Colonoscopy",
                   mapping := res.mapping ++ ["Weight loss <50 or >85 + FIT >100 → colonoscopy."] }
      else if band = some Band.lt_10 then
        { res with outcome := "Follow pathway guidance for FIT <10 (not provided in your rules yet)",
                   mapping := res.mapping ++ ["Weight loss <50 or >85 + FIT <10 → follow FIT <10 guidance."] }
      else { res with outcome := "Needs FIT result" }
    match i.age with
    | some a =>
      if a ≥ 50 ∧ a ≤ 85 then
        { res with supplementary := res.supplementary
            ++ ["Age entered is 50–85; consider selecting the 50–85 weight loss pathway."] }
      else res
    | none => res
  else
    { res with
      step := "Not covered",
      outcome := "This selection is not covered by the provided flowchart rules." }

/-- The earlier revision's `decision` (src/unnamed/part_000 lines 49–289);
as in the later revision, every return path is `return finalize(res)`. -/
def decisionSplit (i : InputSplit) : DecisionResult :=
  finalize i.whoStatus (decisionSplitPre i)

/-! ### The merge engine (`mergeOutcomes`, src/src/App.jsx lines 276–354)

String searching, splitting, trimming and lower-casing are embedded as
structurally recursive functions on `List Char`, so that the kernel can
evaluate them on concrete inputs.  They agree with the JavaScript
operations on the engine's alphabet: `String.prototype.toLowerCase` and
`Char.toLower` agree on ASCII letters and fix every other character used;
splitting on the regex `\s*(?:\+|→|,|;)\s*` followed by `.trim()` and
`.filter(Boolean)` produces the same fragments as splitting on the four
separator characters alone followed by the same trim and filter, since the
absorbed `\s*` runs are removed by the trim in either case. -/

/-- Whether `pat` is a prefix of `s` (character lists). -/
def isPrefixOfCL : List Char → List Char → Bool
  | [], _ => true
  | _ :: _, [] => false
  | p :: ps, c :: cs => p = c && isPrefixOfCL ps cs

/-- Whether `pat` occurs as a contiguous substring of `s`
(JavaScript `String.prototype.includes`). -/
def containsCL : List Char → List Char → Bool
  | [], pat => isPrefixOfCL pat []
  | c :: cs, pat => isPrefixOfCL pat (c :: cs) || containsCL cs pat

/-- `s.includes(pat)` on Lean strings. -/
def strIncludes (s pat : String) : Bool := containsCL s.toList pat.toList

/-- `s.toLowerCase()`. -/
def lowerStr (s : String) : String := String.mk (s.toList.map Char.toLower)

/-- The separator characters of the split regex at src/src/App.jsx line 320. -/
def isSep (c : Char) : Bool := c = '+' || c = '→' || c = ',' || c = ';'

/-- Split a character list at separator characters (the separators
themselves are dropped). -/
def splitFrags : List Char → List Char → List (List Char)
  | [], acc => [acc.reverse]
  | c :: cs, acc => if isSep c then acc.reverse :: splitFrags cs [] else splitFrags cs (c :: acc)

/-- `s.trim()`: drop leading and trailing whitespace. -/
def trimCL (l : List Char) : List Char :=
  ((l.dropWhile Char.isWhitespace).reverse.dropWhile Char.isWhitespace).reverse

/-- The fragment list of an outcome text (src/src/App.jsx line 320):
split on `+`, `→`, `,`, `;`, trim each part, and drop empty parts. -/
def fragments (text : String) : List String :=
  ((splitFrags text.toList []).map (fun cs => String.mk (trimCL cs))).filter
    (fun p => p ≠ "")

/-- `canonicaliseToken` (src/src/App.jsx lines 299–313): map a fragment to
a canonical procedure label and priority by case-insensitive substring
matching, or to `none` when no canonical token matches. -/
def canonicaliseToken (t : String) : Option (String × Nat) :=
  let s := String.mk (trimCL t.toList)
  let low := lowerStr s
  if s = "" then none
  else if strIncludes low "colonoscopy" then some ("Colonoscopy", 100)
  else if strIncludes low "ogd" then some ("OGD", 95)
  else if strIncludes low "ct abdomen" || strIncludes low "ct ap"
       || strIncludes low "ct abdomen & pelvis" then
    some ("CT abdomen & pelvis (CT AP)", 90)
  else if strIncludes low "ct colonography" || strIncludes low "ctc" then
    some ("CT colonography (CTC)", 88)
  else if strIncludes low "ct tap" || strIncludes low "ct thorax/abdomen/pelvis"
       || strIncludes low "ct thorax" then
    some ("CT thorax/abdomen/pelvis (CT TAP)", 86)
  else if strIncludes low "tagged ct" then some ("Tagged CT scan", 80)
  else if strIncludes low "flexible sigmoidoscopy" || strIncludes low "fos" then
    some ("Flexible sigmoidoscopy", 70)
  else none

/-- `Map.set` on the association list modelling the `tokenMap`
(JavaScript `Map` keeps the original position of an updated key and
appends a new key at the end). -/
def setTok : List (String × Nat) → String → Nat → List (String × Nat)
  | [], l, p => [(l, p)]
  | (l', p') :: rest, l, p =>
    if l' = l then (l, p) :: rest else (l', p') :: setTok rest l p

/-- Processing of one fragment (src/src/App.jsx lines 321–326): skip
fragments with no canonical token; otherwise store the canonical label,
keeping the highest priority seen (`!existing || canon.prio > existing`). -/
def addTok (m : List (String × Nat)) (frag : String) : List (String × Nat) :=
  match canonicaliseToken frag with
  | none => m
  | some (label, prio) =>
    match m.lookup label with
    | none => setTok m label prio
    | some e => if e = 0 ∨ prio > e then setTok m label prio else m

/-- The `tokenMap` built over all outcomes (src/src/App.jsx lines 315–327). -/
def tokenMapOf (outcomes : List DecisionResult) : List (String × Nat) :=
  outcomes.foldl (fun m o => (fragments o.outcome).foldl addTok m) []

/-- The suppression rule (src/src/App.jsx lines 329–333): when both
`Colonoscopy` and `Flexible sigmoidoscopy` are present, delete
`Flexible sigmoidoscopy`. -/
def suppressTokens (m : List (String × Nat)) : List (String × Nat) :=
  if (m.lookup "Colonoscopy").isSome && (m.lookup "Flexible sigmoidoscopy").isSome then
    m.filter (fun e => e.1 != "Flexible sigmoidoscopy")
  else m

/-- The sort comparator of src/src/App.jsx line 338: priority descending,
ties broken by label order.  (Only the seven canonical tokens can occur
and their priorities are pairwise distinct, so the sorted order is the
unique one determined by the priorities; the embedding uses Lean's string
order for the never-exercised tie-break in place of `localeCompare`.) -/
def tokLe (a b : String × Nat) : Bool :=
  decide (b.2 < a.2) || (a.2 == b.2 && decide (a.1 ≤ b.1))

/-- Insert into a list sorted by `tokLe`. -/
def insertTok (x : String × Nat) : List (String × Nat) → List (String × Nat)
  | [] => [x]
  | y :: ys => if tokLe x y then x :: y :: ys else y :: insertTok x ys

/-- Sort token entries by `tokLe` (insertion sort; the comparator is a
total order on the lists that arise, so this produces the same list as
`Array.prototype.sort`). -/
def sortTokens : List (String × Nat) → List (String × Nat)
  | [] => []
  | x :: xs => insertTok x (sortTokens xs)

/-- The final merged token labels (src/src/App.jsx lines 336–339). -/
def mergedTokens (outcomes : List DecisionResult) : List String :=
  (sortTokens (suppressTokens (tokenMapOf outcomes))).map Prod.fst

/-- The union helper of src/src/App.jsx line 278:
`Array.from(new Set(arr.flat()))` — deduplicate, keeping first-seen order. -/
def union (ls : List (List String)) : List String :=
  ls.flatten.foldl (fun acc s => if s ∈ acc then acc else acc ++ [s]) []

/-- The escalation marker test of src/src/App.jsx line 285:
`String(o.outcome || "").toLowerCase().includes("face-to-face")`. -/
def isFace (o : DecisionResult) : Bool :=
  strIncludes (lowerStr o.outcome) "face-to-face"

/-- The merged result record returned by `mergeOutcomes`
(src/src/App.jsx lines 286–294 and 345–353). -/
structure MergedResult where
  per_pathway : List DecisionResult
  merged_outcome : String
  merged_step : String
  merged_pathway : Option String
  missing : List String
  mapping : List String
  supplementary : List String
deriving DecidableEq, Repr

/-- `mergeOutcomes` (src/src/App.jsx lines 276–354): `null` on an empty
list; escalation precedence when any constituent's outcome contains the
face-to-face marker; otherwise tokenize, deduplicate, suppress, sort and
join, with the em-dash as the empty-token marker. -/
def mergeOutcomes (outcomes : List DecisionResult) : Option MergedResult :=
  if outcomes = [] then none
  else
    let missing := union (outcomes.map (·.missing))
    let mapping := union (outcomes.map (·.mapping))
    let supplementary := union (outcomes.map (·.supplementary))
    match outcomes.find? isFace with
    | some _ =>
      some { per_pathway := outcomes,
             merged_outcome := "Face-to-face assessment",
             merged_step := "Face-to-face (one or more pathways)",
             merged_pathway := none,
             missing := missing, mapping := mapping, supplementary := supplementary }
    | none =>
      let mergedToks := mergedTokens outcomes
      let mergedOutcomeText :=
        if mergedToks = [] then "—" else String.intercalate " + " mergedToks
      let mergedStep :=
        String.intercalate " || " (((outcomes.map (·.step)).filter (fun s => s ≠ "")))
      some { per_pathway := outcomes,
             merged_outcome := mergedOutcomeText,
             merged_step := mergedStep,
             merged_pathway := none,
             missing := missing, mapping := mapping, supplementary := supplementary }

/-- A decision result whose outcome is `Colonoscopy` (as produced e.g. by
the abdominal-mass pathway with FIT > 100). -/
def resColo : DecisionResult :=
  { missing := [], band := some Band.gt_100, outcome := "Colonoscopy",
    step := "Rule set A: Abdominal mass",
    mapping := ["Abdominal mass + FIT >100 → colonoscopy."], supplementary := [] }

/-- A decision result whose outcome is `Flexible sigmoidoscopy` (as
produced by the rectal-bleeding pathway without anaemia and FIT < 10). -/
def resFlex : DecisionResult :=
  { missing := [], band := some Band.lt_10, outcome := "Flexible sigmoidoscopy",
    step := "Rule set F/G: Rectal bleeding + CIBH <50",
    mapping := ["RB + CIBH <50 no anaemia + FIT <10 → flexible sigmoidoscopy."],
    supplementary := [] }

/-- The rectal-bleeding result with the conditional flexible-sigmoidoscopy
outcome text (no anaemia, FIT ≥ 10). -/
def resFos : DecisionResult :=
  { missing := [], band := some Band.b10_100,
    outcome := "Flexible sigmoidoscopy (FOS) → if NAD, proceed to colonoscopy",
    step := "Rule set F/G: Rectal bleeding + CIBH <50",
    mapping := ["RB + CIBH <50 no anaemia + FIT ≥10 → FOS then if NAD proceed to colonoscopy."],
    supplementary := [] }

/-- A placeholder decision result with the `Needs FIT result` outcome. -/
def resNeeds : DecisionResult :=
  { missing := ["FIT test result"], band := none, outcome := "Needs FIT result",
    step := "Rule set B: CIBH age 50–85", mapping := [], supplementary := [] }

/-- An escalation decision result (anal/rectal-lesion pathway). -/
def resFace : DecisionResult :=
  { missing := [], band := none, outcome := "Face-to-face assessment",
    step := "Rule set: Anal or rectal lesion",
    mapping := ["Anal or rectal lesion → face-to-face assessment."],
    supplementary := [] }

/-! ### Helper lemmas -/

theorem finalize_step (w : Option ℕ) (r : DecisionResult) :
    (finalize w r).step = r.step := by
  unfold finalize; split <;> rfl

theorem finalize_band (w : Option ℕ) (r : DecisionResult) :
    (finalize w r).band = r.band := by
  unfold finalize; split <;> rfl

theorem finalize_missing (w : Option ℕ) (r : DecisionResult) :
    (finalize w r).missing = r.missing := by
  unfold finalize; split <;> rfl

theorem finalize_supplementary (w : Option ℕ) (r : DecisionResult) :
    (finalize w r).supplementary = r.supplementary := by
  unfold finalize; split <;> rfl

theorem finalize_who34 {w : Option ℕ} (r : DecisionResult)
    (h : w = some 3 ∨ w = some 4) :
    (finalize w r).outcome = "Face-to-face assessment" ∧
    (finalize w r).mapping = r.mapping ++ ["WHO status 3–4 → face-to-face assessment."] := by
  unfold finalize; rw [if_pos h]; exact ⟨rfl, rfl⟩

theorem finalize_not_who34 {w : Option ℕ} (r : DecisionResult)
    (h : ¬(w = some 3 ∨ w = some 4)) : finalize w r = r := by
  unfold finalize; rw [if_neg h]

theorem finalize_outcome_ne {w : Option ℕ} {r : DecisionResult}
    (h : r.outcome ≠ "") : (finalize w r).outcome ≠ "" := by
  unfold finalize; split
  · simp
  · exact h

theorem finalize_mapping_ne {w : Option ℕ} {r : DecisionResult}
    (h : r.mapping ≠ []) : (finalize w r).mapping ≠ [] := by
  unfold finalize; split
  · simp
  · exact h

theorem fitBand_some (v : ℚ) : ∃ b, fitBand (some v) = some b := by
  have hfb : fitBand (some v)
      = (if v < 10 then some Band.lt_10
         else if 10 ≤ v ∧ v ≤ 100 then some Band.b10_100
         else some Band.gt_100) := rfl
  rw [hfb]; split_ifs <;> exact ⟨_, rfl⟩

/-! ### Claim theorems -/

/-- C4: `fitBand` is a total function: `v < 10` yields the low band,
`10 ≤ v ≤ 100` (inclusive at both ends) the mid band, `v > 100` the high
band, an absent value yields no band, and a band always exists when a
value is present (no input raises an error: `fitBand` is a Lean function). -/
theorem C4_fitBand_total (v : ℚ) :
    (v < 10 → fitBand (some v) = some Band.lt_10) ∧
    (10 ≤ v → v ≤ 100 → fitBand (some v) = some Band.b10_100) ∧
    (100 < v → fitBand (some v) = some Band.gt_100) ∧
    fitBand none = none ∧
    (∃! b, fitBand (some v) = some b) := by
  have hfb : fitBand (some v)
      = (if v < 10 then some Band.lt_10
         else if 10 ≤ v ∧ v ≤ 100 then some Band.b10_100
         else some Band.gt_100) := rfl
  refine ⟨?_, ?_, ?_, rfl, ?_⟩
  · intro h
    rw [hfb, if_pos h]
  · intro h1 h2
    rw [hfb, if_neg (not_lt.mpr h1), if_pos ⟨h1, h2⟩]
  · intro h
    rw [hfb, if_neg (not_lt.mpr (by linarith)),
        if_neg (fun hc => absurd hc.2 (not_le.mpr h))]
  · rw [hfb]
    split_ifs <;> exact ⟨_, rfl, fun y hy => (Option.some.inj hy).symm⟩

/-- Witness for C4 at the boundary and interior points 5, 10, 100, 101. -/
theorem C4_fitBand_total_witness :
    fitBand (some 5) = some Band.lt_10 ∧
    fitBand (some 10) = some Band.b10_100 ∧
    fitBand (some 100) = some Band.b10_100 ∧
    fitBand (some 101) = some Band.gt_100 :=
  ⟨(C4_fitBand_total 5).1 (by norm_num),
   (C4_fitBand_total 10).2.1 (by norm_num) (by norm_num),
   (C4_fitBand_total 100).2.1 (by norm_num) (by norm_num),
   (C4_fitBand_total 101).2.2.1 (by norm_num)⟩

/-- C5: for every input that reaches pathway dispatch (no recent-imaging
short-circuit, a pathway selected), WHO status 3 or 4 overwrites the
outcome with the face-to-face assessment text and appends the WHO trace
entry last. -/
theorem C5_who_override (i : Input) (h1 : i.recentImaging ≠ some true)
    (h2 : i.pathway ≠ "")
    (h3 : i.whoStatus = some 3 ∨ i.whoStatus = some 4) :
    (decision i).outcome = "Face-to-face assessment" ∧
    ∃ l, (decision i).mapping = l ++ ["WHO status 3–4 → face-to-face assessment."] := by
  have h := finalize_who34 (decisionPre i) h3
  exact ⟨h.1, (decisionPre i).mapping, h.2⟩

/-- Witness for C5 at a concrete dispatched input with WHO status 3. -/
theorem C5_who_override_witness :
    (decision ⟨"ida_lt_50", some 40, some 5, none, none, some 3, none⟩).outcome
      = "Face-to-face assessment" ∧
    ∃ l, (decision ⟨"ida_lt_50", some 40, some 5, none, none, some 3, none⟩).mapping
      = l ++ ["WHO status 3–4 → face-to-face assessment."] :=
  C5_who_override ⟨"ida_lt_50", some 40, some 5, none, none, some 3, none⟩
    (by decide) (by decide) (Or.inl rfl)

/-- C1 counterexample: with `recentImaging = true` and WHO status 3, the
returned outcome is the face-to-face *assessment* text (the WHO override
rewrites the short-circuit's appointment text) and the rule trace holds
two entries, not only the override entry — so the short-circuit does not
take precedence over the WHO override. -/
theorem C1_counterexample :
    (decision ⟨"abdominal_mass", some 60, some 50, some false, none, some 3, some true⟩).outcome
      = "Face-to-face assessment" ∧
    (decision ⟨"abdominal_mass", some 60, some 50, some false, none, some 3, some true⟩).outcome
      ≠ "Face-to-face appointment" ∧
    (decision ⟨"abdominal_mass", some 60, some 50, some false, none, some 3, some true⟩).mapping
      = ["Recent imaging/colonoscopy within 12 months → face-to-face appointment.",
         "WHO status 3–4 → face-to-face assessment."] := by
  refine ⟨rfl, by decide, rfl⟩

/-- C1 (amended): `recentImaging = true` short-circuits before pathway
dispatch for every pathway, age, FIT value and WHO status: no
pathway-specific rule runs (the step is never set, the trace holds no
pathway entry) and the outcome is the face-to-face appointment text with
only the override trace entry — except that the WHO override still runs
on the short-circuit result, so with WHO status 3 or 4 the outcome is the
face-to-face assessment text and the WHO entry is appended. -/
theorem C1_recentImaging_shortCircuit (p : String) (age fit : Option ℚ)
    (fr an : Option Bool) (w : Option ℕ) :
    (decision ⟨p, age, fit, fr, an, w, some true⟩).outcome
      = (if w = some 3 ∨ w = some 4 then "Face-to-face assessment"
         else "Face-to-face appointment") ∧
    (decision ⟨p, age, fit, fr, an, w, some true⟩).mapping
      = ["Recent imaging/colonoscopy within 12 months → face-to-face appointment."]
        ++ (if w = some 3 ∨ w = some 4
            then ["WHO status 3–4 → face-to-face assessment."] else []) ∧
    (decision ⟨p, age, fit, fr, an, w, some true⟩).step
      = (if p = "" then "Choose a pathway" else "") := by
  have hpre : decisionPre ⟨p, age, fit, fr, an, w, some true⟩ =
      { missing := (if p = "" then ["pathway selection"] else [])
          ++ (if p ≠ "" ∧ p ≠ "anal_rectal_lesion" then
                (if age = none then ["age"] else [])
                ++ (if fit = none then ["FIT test result"] else [])
              else [])
          ++ (if p = "abdominal_mass" ∧ fr = none then ["frail/elderly status"] else [])
          ++ (if p = "rb_cibh_lt_50" ∧ an = none then ["anaemia status"] else []),
        band := fitBand fit,
        outcome := "Face-to-face appointment",
        step := if p = "" then "Choose a pathway" else "",
        mapping := ["Recent imaging/colonoscopy within 12 months → face-to-face appointment."],
        supplementary := [] } := by
    unfold decisionPre
    simp
  unfold decision
  by_cases hw : w = some 3 ∨ w = some 4
  · obtain ⟨ho, hm⟩ := finalize_who34 (decisionPre ⟨p, age, fit, fr, an, w, some true⟩) hw
    rw [if_pos hw, if_pos hw]
    refine ⟨ho, ?_, ?_⟩
    · rw [hm, hpre]
    · simp [finalize_step, hpre]
  · rw [finalize_not_who34 _ hw, hpre, if_neg hw, if_neg hw]
    exact ⟨rfl, by simp, rfl⟩

/-- C3 counterexample: on the recognized `cibh_50_85` pathway with no
short-circuit but the FIT value absent, the dispatched rule set sets the
step and the placeholder outcome but appends *no* entry to the flowchart
mapping trace — the trace is empty. -/
theorem C3_counterexample :
    (decision ⟨"cibh_50_85", some 60, none, none, none, none, none⟩).step
      = "Rule set B: CIBH age 50–85" ∧
    (decision ⟨"cibh_50_85", some 60, none, none, none, none, none⟩).outcome
      = "Needs FIT result" ∧
    (decision ⟨"cibh_50_85", some 60, none, none, none, none, none⟩).mapping = [] := by
  decide

set_option maxHeartbeats 1000000 in
/-- C3 (amended): for every recognized pathway and every input with no
recent-imaging short-circuit, the dispatched rule set sets a non-empty
`ruleLabel` (`step`) and a non-empty `outcomeText`, and appends at least
one trace entry whenever the FIT value is present; when the FIT value is
absent, rule sets that need it fall back to the `Needs FIT result`
placeholder without appending a trace entry. -/
theorem C3_dispatch_amended (p : String) (hp : p ∈ pathwayKeys) (i : Input)
    (hpath : i.pathway = p) (himg : i.recentImaging ≠ some true) :
    (decision i).step ≠ "" ∧ (decision i).outcome ≠ "" ∧
    (i.fit ≠ none → (decision i).mapping ≠ []) := by
  have hp9 : p = "abdominal_mass" ∨ p = "anal_rectal_lesion" ∨ p = "cibh_50_85" ∨
      p = "cibh_gt_85" ∨ p = "ida_gt_50" ∨ p = "ida_lt_50" ∨ p = "rb_cibh_lt_50" ∨
      p = "wl_50_85" ∨ p = "wl_lt_50_or_gt_85" := by
    simpa [pathwayKeys, pathways] using hp
  have key : (decisionPre i).step ≠ "" ∧ (decisionPre i).outcome ≠ "" ∧
      (i.fit ≠ none → (decisionPre i).mapping ≠ []) := by
    rcases hfit : i.fit with _ | v
    · rcases hp9 with h|h|h|h|h|h|h|h|h <;> subst h <;>
        (rcases hage : i.age with _ | a <;>
         (simp [decisionPre, hpath, hfit, fitBand, himg, hage] <;> (try split_ifs) <;> simp_all))
    · obtain ⟨b, hb⟩ := fitBand_some v
      rcases hp9 with h|h|h|h|h|h|h|h|h <;> subst h <;>
        (rcases hage : i.age with _ | a <;> rcases b <;>
         (simp [decisionPre, hpath, hfit, hb, himg, hage] <;> (try split_ifs) <;> simp_all))
  exact ⟨by unfold decision; rw [finalize_step]; exact key.1,
         finalize_outcome_ne key.2.1,
         fun hf => finalize_mapping_ne (key.2.2 hf)⟩

/-- Witness for C3 on the `cibh_50_85` pathway with the FIT value present. -/
theorem C3_dispatch_amended_witness :
    (decision ⟨"cibh_50_85", some 60, some 50, none, none, none, none⟩).step ≠ "" ∧
    (decision ⟨"cibh_50_85", some 60, some 50, none, none, none, none⟩).outcome ≠ "" ∧
    ((⟨"cibh_50_85", some 60, some 50, none, none, none, none⟩ : Input).fit ≠ none →
      (decision ⟨"cibh_50_85", some 60, some 50, none, none, none, none⟩).mapping ≠ []) :=
  C3_dispatch_amended "cibh_50_85" (by decide)
    ⟨"cibh_50_85", some 60, some 50, none, none, none, none⟩ rfl (by decide)

set_option maxHeartbeats 1600000 in
/-- C8: for every pathway other than the empty selection and the
anal/rectal-lesion pathway, the missing-field list is exactly the absent
fields among age and FIT value (each once, in canonical order, followed by
the pathway-specific flag entries), and the outcome text is non-empty;
`decision` is a total Lean function, so no input raises an exception. -/
theorem C8_missing_graceful (i : Input) (h1 : i.pathway ≠ "")
    (h2 : i.pathway ≠ "anal_rectal_lesion") :
    (decision i).missing =
      (if i.age = none then ["age"] else [])
      ++ (if i.fit = none then ["FIT test result"] else [])
      ++ (if i.pathway = "abdominal_mass" ∧ i.frailElderly = none then
            ["frail/elderly status"] else [])
      ++ (if i.pathway = "rb_cibh_lt_50" ∧ i.anaemia = none then
            ["anaemia status"] else []) ∧
    (decision i).outcome ≠ "" := by
  have hpre : (decisionPre i).missing =
      (if i.age = none then ["age"] else [])
      ++ (if i.fit = none then ["FIT test result"] else [])
      ++ (if i.pathway = "abdominal_mass" ∧ i.frailElderly = none then
            ["frail/elderly status"] else [])
      ++ (if i.pathway = "rb_cibh_lt_50" ∧ i.anaemia = none then
            ["anaemia status"] else []) ∧
      (decisionPre i).outcome ≠ "" := by
    by_cases hmem : i.pathway ∈ pathwayKeys
    · have hp9 : i.pathway = "abdominal_mass" ∨ i.pathway = "anal_rectal_lesion" ∨
          i.pathway = "cibh_50_85" ∨ i.pathway = "cibh_gt_85" ∨
          i.pathway = "ida_gt_50" ∨ i.pathway = "ida_lt_50" ∨
          i.pathway = "rb_cibh_lt_50" ∨ i.pathway = "wl_50_85" ∨
          i.pathway = "wl_lt_50_or_gt_85" := by
        simpa [pathwayKeys, pathways] using hmem
      rcases hfit : i.fit with _ | v
      · rcases hp9 with h|h|h|h|h|h|h|h|h <;>
          (rcases hage : i.age with _ | a <;>
           (simp [decisionPre, h, h2, hage, hfit, fitBand] <;>
            (try split_ifs) <;> simp_all))
      · obtain ⟨b, hb⟩ := fitBand_some v
        rcases hp9 with h|h|h|h|h|h|h|h|h <;>
          (rcases hage : i.age with _ | a <;> rcases b <;>
           (simp [decisionPre, h, h2, hage, hfit, hb] <;>
            (try split_ifs) <;> simp_all))
    · have hne : ¬(i.pathway = "abdominal_mass" ∨ i.pathway = "anal_rectal_lesion" ∨
          i.pathway = "cibh_50_85" ∨ i.pathway = "cibh_gt_85" ∨
          i.pathway = "ida_gt_50" ∨ i.pathway = "ida_lt_50" ∨
          i.pathway = "rb_cibh_lt_50" ∨ i.pathway = "wl_50_85" ∨
          i.pathway = "wl_lt_50_or_gt_85") := by
        intro hcon
        exact hmem (by simpa [pathwayKeys, pathways] using hcon)
      push_neg at hne
      obtain ⟨n1, n2, n3, n4, n5, n6, n7, n8, n9⟩ := hne
      rcases hfit : i.fit with _ | v
      · rcases hage : i.age with _ | a <;>
          (simp [decisionPre, hage, hfit, fitBand, h1,
                 n1, n2, n3, n4, n5, n6, n7, n8, n9] <;>
           (try split_ifs) <;> simp_all)
      · obtain ⟨b, hb⟩ := fitBand_some v
        rcases hage : i.age with _ | a <;> rcases b <;>
          (simp [decisionPre, hage, hfit, hb, h1,
                 n1, n2, n3, n4, n5, n6, n7, n8, n9] <;>
           (try split_ifs) <;> simp_all)
  exact ⟨by unfold decision; rw [finalize_missing]; exact hpre.1,
         finalize_outcome_ne hpre.2⟩

/-- Witness for C8 on `cibh_50_85` with every optional field absent. -/
theorem C8_missing_graceful_witness :
    (decision ⟨"cibh_50_85", none, none, none, none, none, none⟩).missing =
      (if (none : Option ℚ) = none then ["age"] else [])
      ++ (if (none : Option ℚ) = none then ["FIT test result"] else [])
      ++ (if ("cibh_50_85" : String) = "abdominal_mass" ∧ (none : Option Bool) = none then
            ["frail/elderly status"] else [])
      ++ (if ("cibh_50_85" : String) = "rb_cibh_lt_50" ∧ (none : Option Bool) = none then
            ["anaemia status"] else []) ∧
    (decision ⟨"cibh_50_85", none, none, none, none, none, none⟩).outcome ≠ "" :=
  C8_missing_graceful ⟨"cibh_50_85", none, none, none, none, none, none⟩
    (by decide) (by decide)

set_option maxHeartbeats 1600000 in
/-- C10: on the abdominal-mass pathway, evaluations that differ only in
`frailElderly` being explicitly `false` versus unknown agree on the
outcome, step, band and flowchart mapping trace; they differ only in the
missing-field list (the frail/elderly entry is appended exactly when the
flag is unknown) and in the supplementary notes (the frail caveat is
appended exactly when the flag is unknown and the evaluation is not
short-circuited by recent imaging). -/
theorem C10_frail_false_vs_unknown (age fit : Option ℚ) (an ri : Option Bool)
    (w : Option ℕ) :
    (decision ⟨"abdominal_mass", age, fit, some false, an, w, ri⟩).outcome
      = (decision ⟨"abdominal_mass", age, fit, none, an, w, ri⟩).outcome ∧
    (decision ⟨"abdominal_mass", age, fit, some false, an, w, ri⟩).step
      = (decision ⟨"abdominal_mass", age, fit, none, an, w, ri⟩).step ∧
    (decision ⟨"abdominal_mass", age, fit, some false, an, w, ri⟩).band
      = (decision ⟨"abdominal_mass", age, fit, none, an, w, ri⟩).band ∧
    (decision ⟨"abdominal_mass", age, fit, some false, an, w, ri⟩).mapping
      = (decision ⟨"abdominal_mass", age, fit, none, an, w, ri⟩).mapping ∧
    (decision ⟨"abdominal_mass", age, fit, none, an, w, ri⟩).missing
      = (decision ⟨"abdominal_mass", age, fit, some false, an, w, ri⟩).missing
        ++ ["frail/elderly status"] ∧
    (decision ⟨"abdominal_mass", age, fit, none, an, w, ri⟩).supplementary
      = (decision ⟨"abdominal_mass", age, fit, some false, an, w, ri⟩).supplementary
        ++ (if ri = some true then []
            else ["Frail/elderly status missing: if frail/elderly, pathway specifies CT AP regardless of FIT band."]) := by
  rcases hfit : fit with _ | v
  · simp [decision, decisionPre, finalize, hfit, fitBand] <;>
      (try split_ifs) <;> simp_all
  · obtain ⟨b, hb⟩ := fitBand_some v
    rcases b <;>
      (simp [decision, decisionPre, finalize, hfit, hb] <;>
       (try split_ifs) <;> simp_all)

set_option maxHeartbeats 1600000 in
/-- C9: for every age, FIT value and WHO status, and for the anaemia flag
explicitly `true` or `false`, the unified evaluator on `rb_cibh_lt_50`
(with `recentImaging` absent) returns the same outcome text as the earlier
split-revision evaluator on the variant pathway matching the flag. -/
theorem C9_split_unified_equiv (age fit : Option ℚ) (fr : Option Bool)
    (w : Option ℕ) (b : Bool) :
    (decision ⟨"rb_cibh_lt_50", age, fit, fr, some b, w, none⟩).outcome
      = (decisionSplit ⟨if b then "rb_cibh_lt_50_anaemia" else "rb_cibh_lt_50_no_anaemia",
                        age, fit, fr, some b, w⟩).outcome := by
  cases b <;>
    (rcases hfit : fit with _ | v
     · rcases hage : age with _ | a <;>
         (simp [decision, decisionSplit, decisionPre, decisionSplitPre, finalize,
                hfit, hage, fitBand] <;> (try split_ifs) <;> simp_all)
     · obtain ⟨bb, hb⟩ := fitBand_some v
       rcases hage : age with _ | a <;> rcases bb <;>
         (simp [decision, decisionSplit, decisionPre, decisionSplitPre, finalize,
                hfit, hage, hb] <;> (try split_ifs) <;> simp_all))

theorem lookup_isSome_iff (m : List (String × Nat)) (l : String) :
    (m.lookup l).isSome = true ↔ l ∈ m.map Prod.fst := by
  induction m with
  | nil => simp [List.lookup]
  | cons e rest ih =>
    obtain ⟨k, v⟩ := e
    by_cases hk : l = k
    · subst hk; simp [List.lookup]
    · have hbk : (l == k) = false := beq_eq_false_iff_ne.mpr hk
      simp [List.lookup, hbk, hk, ih]

theorem mem_insertTok (x y : String × Nat) (l : List (String × Nat)) :
    x ∈ insertTok y l ↔ x = y ∨ x ∈ l := by
  induction l with
  | nil => simp [insertTok]
  | cons z zs ih =>
    unfold insertTok
    split_ifs with h
    · simp [List.mem_cons]; try tauto
    · simp [List.mem_cons, ih]; try tauto

theorem mem_sortTokens (x : String × Nat) (l : List (String × Nat)) :
    x ∈ sortTokens l ↔ x ∈ l := by
  induction l with
  | nil => simp [sortTokens]
  | cons z zs ih => simp [sortTokens, mem_insertTok, ih]

/-- C6: if any constituent's outcome contains the face-to-face marker,
the merged result exists, its outcome is the face-to-face assessment
text, and its step is the early-return escalation step (so the
tokenization path was never taken). -/
theorem C6_merge_escalation (rs : List DecisionResult) (o : DecisionResult)
    (ho : o ∈ rs) (hm : isFace o = true) :
    ∃ m, mergeOutcomes rs = some m ∧
      m.merged_outcome = "Face-to-face assessment" ∧
      m.merged_step = "Face-to-face (one or more pathways)" := by
  have hne : rs ≠ [] := by rintro rfl; cases ho
  have hfind : (rs.find? isFace).isSome := List.find?_isSome.mpr ⟨o, ho, hm⟩
  unfold mergeOutcomes
  rw [if_neg hne]
  cases hf : rs.find? isFace with
  | none => rw [hf] at hfind; cases hfind
  | some x => exact ⟨_, rfl, rfl, rfl⟩

/-- Witness for C6: a singleton list holding the anal/rectal-lesion
escalation result. -/
theorem C6_merge_escalation_witness :
    ∃ m, mergeOutcomes [resFace] = some m ∧
      m.merged_outcome = "Face-to-face assessment" ∧
      m.merged_step = "Face-to-face (one or more pathways)" :=
  C6_merge_escalation [resFace] resFace (List.mem_singleton.mpr rfl) (by decide)

/-- C7: whenever both the `Colonoscopy` and `Flexible sigmoidoscopy`
canonical tokens are present in the deduplicated token map,
`Flexible sigmoidoscopy` is dropped from the merged token list; in
particular, merging two results whose outcomes are `Colonoscopy` and
`Flexible sigmoidoscopy` yields the merged outcome `Colonoscopy` alone. -/
theorem C7_suppression :
    (∀ rs : List DecisionResult,
        "Colonoscopy" ∈ (tokenMapOf rs).map Prod.fst →
        "Flexible sigmoidoscopy" ∈ (tokenMapOf rs).map Prod.fst →
        "Flexible sigmoidoscopy" ∉ mergedTokens rs) ∧
    (mergeOutcomes [resColo, resFlex]).map (fun m => m.merged_outcome)
      = some "Colonoscopy" := by
  constructor
  · intro rs hc hf hmem
    unfold mergedTokens at hmem
    obtain ⟨x, hin, hfst⟩ := List.mem_map.mp hmem
    rw [mem_sortTokens] at hin
    unfold suppressTokens at hin
    rw [if_pos (by
      rw [Bool.and_eq_true]
      exact ⟨(lookup_isSome_iff _ _).mpr hc, (lookup_isSome_iff _ _).mpr hf⟩)] at hin
    have h2 := (List.mem_filter.mp hin).2
    rw [hfst] at h2
    simp at h2
  · decide

/-- Witness for C7: both canonical tokens arise from the two outcomes, and
the suppressed merged token list omits `Flexible sigmoidoscopy`. -/
theorem C7_suppression_witness :
    ("Colonoscopy" ∈ (tokenMapOf [resColo, resFlex]).map Prod.fst ∧
     "Flexible sigmoidoscopy" ∈ (tokenMapOf [resColo, resFlex]).map Prod.fst) ∧
    "Flexible sigmoidoscopy" ∉ mergedTokens [resColo, resFlex] :=
  ⟨⟨by decide, by decide⟩,
   C7_suppression.1 [resColo, resFlex] (by decide) (by decide)⟩

/-- C2 counterexample: the conditional tail of the flexible-sigmoidoscopy
outcome is the fragment `proceed to colonoscopy`, which *does* match the
`Colonoscopy` canonical token; merging that single outcome therefore
yields `Colonoscopy` (the contributed token then suppresses
`Flexible sigmoidoscopy`), contradicting the claim that the conditional
fragment is discarded and contributes no procedure token. -/
theorem C2_counterexample :
    "proceed to colonoscopy"
      ∈ fragments "Flexible sigmoidoscopy (FOS) → if NAD, proceed to colonoscopy" ∧
    canonicaliseToken "proceed to colonoscopy" = some ("Colonoscopy", 100) ∧
    (mergeOutcomes [resFos]).map (fun m => m.merged_outcome) = some "Colonoscopy" := by
  refine ⟨by decide, by decide, by decide⟩

/-- C2 (amended): fragments that match no canonical token — such as the
`if NAD` fragment and the `Needs FIT result` placeholder — are discarded
and contribute no token to the merged outcome (a placeholder-only merge
yields the em-dash); but the `proceed to colonoscopy` tail of the
flexible-sigmoidoscopy outcome matches the `Colonoscopy` token and does
contribute it. -/
theorem C2_token_discard :
    (∀ (m : List (String × Nat)) (frag : String),
        canonicaliseToken frag = none → addTok m frag = m) ∧
    canonicaliseToken "if NAD" = none ∧
    canonicaliseToken "Needs FIT result" = none ∧
    (mergeOutcomes [resNeeds]).map (fun m => m.merged_outcome) = some "—" ∧
    canonicaliseToken "proceed to colonoscopy" = some ("Colonoscopy", 100) := by
  refine ⟨?_, by decide, by decide, by decide, by decide⟩
  intro m frag h
  unfold addTok
  rw [h]

/-- Witness for C2: the `if NAD` fragment is discarded by `addTok`. -/
theorem C2_token_discard_witness :
    canonicaliseToken "if NAD" = none ∧ addTok [] "if NAD" = [] :=
  ⟨by decide, C2_token_discard.1 [] "if NAD" (by decide)⟩

end Colorectal
